import Mathlib

/-!
Verification development for the locshare server core
(`server/src/index.ts`): a socket.io application with the handlers
`createRoom`, `joinRoom`, `updateLocation`, `getLocationHistory` and
`disconnect`, the global maps `roomCreator` (room id to creator socket id)
and `locationHistory` (room id to list of records), and the socket.io
adapter room table `io.sockets.adapter.rooms` (room name to set of socket
ids).  Socket.io transport facts that the code relies on are part of the
embedding: every connected socket is a member of a room named by its own
id (this is how `io.to(socket.id)` point-to-point replies work, and it
makes that room visible to `rooms.has`), and when the `disconnect` event
fires the socket has already been removed from every room (empty rooms
being dropped from the adapter) and from the namespace's socket table.
-/

set_option linter.unusedVariables false

namespace Locshare

/-- Geographic position payload `{lat, lng}` sent by clients.  The server
never computes with the coordinates - it only stores and forwards them -
so an integer carrier stands in for the JavaScript numbers. -/
structure Position where
  lat : Int
  lng : Int
deriving DecidableEq

/-- Payload of an `updateLocation` message: the handler reads only
`data.position`, which a client may omit. -/
structure UpdateData where
  position : Option Position
deriving DecidableEq

/-- Per-connection state attached to the socket object (`CustomSocket`,
lines 39-42 of the source): `socket.roomId` and `socket.nickname`, both
initially undefined. -/
structure Session where
  roomId : Option String
  nickname : Option String
deriving DecidableEq

/-- A location-history record as built by the `createRoom` and
`updateLocation` handlers: `{room_id, user_id, nickname, position,
timestamp}`.  The `new Date().toISOString()` timestamp is abstracted to an
opaque `Nat` capture time. -/
structure LocRecord where
  room_id : String
  user_id : String
  nickname : Option String
  position : Option Position
  timestamp : Nat
deriving DecidableEq

/-- The messages the server emits, one constructor per `emit` call site in
the source, carrying exactly the fields the code puts in the payload.
`roomDestroyed` and the ERROR variant of `roomJoined` carry only their
constant `status` field, so they take no arguments here. -/
inductive EventMsg where
  | roomCreated (roomId : String) (position : Option Position)
      (totalConnectedUsers : List String) (nickname : String)
  | roomJoinedOk (nickname : String)
  | roomJoinedError
  | userJoinedRoom (userId : String) (nickname : String)
      (totalConnectedUsers : List String)
  | updateLocationResponse (data : UpdateData)
  | locationHistoryMsg (history : List LocRecord)
  | roomDestroyed
  | userLeftRoom (userId : String) (totalConnectedUsers : List String)
deriving DecidableEq

/-- One emission: the recipients resolved at the moment of the `emit`
call (a singleton for `socket.emit` / `creatorSocket.emit`, the adapter's
member list for `io.to(room).emit`) together with the message. -/
structure Emit where
  recipients : List String
  msg : EventMsg
deriving DecidableEq

/-- The messages a given socket receives from a list of emissions. -/
def deliveredTo (es : List Emit) (sid : String) : List EventMsg :=
  (es.filter (fun e => decide (sid ∈ e.recipients))).map Emit.msg

/-- The ordered internal actions of the `updateLocation` handler body:
the in-memory `push`, starting the callback-style `fs.writeFile`, the
`await`ed supabase `insert`, and the `io.to(roomId).emit` broadcast. -/
inductive UpdAction where
  | appendMem
  | fsWriteStart
  | awaitDbInsert
  | broadcast
deriving DecidableEq

/-- Point update of a string-keyed map. -/
def mapSet {α : Type} (m : String → Option α) (k : String) (v : α) :
    String → Option α :=
  fun x => if x = k then some v else m x

/-- Point deletion from a string-keyed map. -/
def mapDel {α : Type} (m : String → Option α) (k : String) :
    String → Option α :=
  fun x => if x = k then none else m x

/-- `socket.join(room)`: the adapter adds the socket to the room's set,
creating the room if needed; joining a room one is already in is a no-op
(adapter sets are duplicate-free, insertion order kept as a list). -/
def adapterJoin (rooms : String → Option (List String)) (sid room : String) :
    String → Option (List String) :=
  match rooms room with
  | none => mapSet rooms room [sid]
  | some l => if sid ∈ l then rooms else mapSet rooms room (l ++ [sid])

/-- `socket.leave(room)` / adapter `del`: removes the socket from that one
room, dropping the room from the adapter if its set becomes empty. -/
def adapterLeave (rooms : String → Option (List String)) (sid room : String) :
    String → Option (List String) :=
  match rooms room with
  | none => rooms
  | some l =>
    if l.erase sid = [] then mapDel rooms room
    else mapSet rooms room (l.erase sid)

/-- Transport-level leave-all on disconnect: the socket is removed from
every room it is in, empty rooms being dropped from the adapter. -/
def adapterLeaveAll (rooms : String → Option (List String)) (sid : String) :
    String → Option (List String) :=
  fun r =>
    match rooms r with
    | none => none
    | some l => if l.erase sid = [] then none else some (l.erase sid)

/-- JavaScript `x || d` for an optional string: both an absent and an
empty nickname fall back to the default (the socket id). -/
def jsOr (x : Option String) (d : String) : String :=
  match x with
  | some s => if s = "" then d else s
  | none => d

/-- JavaScript truthiness of an optional string, as in `if (roomId)`:
an absent value and the empty string are both falsy.  Returns the string
when it is truthy, `none` otherwise. -/
def jsTruthyStr (x : Option String) : Option String :=
  match x with
  | some s => if s = "" then none else some s
  | none => none

/-- JavaScript `String.prototype.substring(a, b)` for `a ≤ b`, clamping
to the string's length. -/
def jsSubstring (s : String) (a b : Nat) : String :=
  String.mk ((s.toList.drop a).take (b - a))

/-- Room id generation, line 53: `Math.random().toString(36).substring(2, 7)`.
The argument is the `toString(36)` rendering of the random number. -/
def genRoomId (r36 : String) : String :=
  jsSubstring r36 2 7

/-- The base-36 digit alphabet used by `Number.prototype.toString(36)`. -/
def base36Chars : List Char :=
  String.toList "0123456789abcdefghijklmnopqrstuvwxyz"

/-- Shape of `x.toString(36)` for `x = Math.random() ∈ [0,1)`: either the
single character `0` (for `x = 0`) or `0.` followed by a nonempty run of
base-36 digits. -/
def isRand36 (s : String) : Prop :=
  s = "0" ∨ ∃ ds : List Char, ds ≠ [] ∧ (∀ c ∈ ds, c ∈ base36Chars) ∧
    s = String.mk ('0' :: '.' :: ds)

/-- The whole in-memory server state: ids ever assigned by the transport
(`used`, socket.io ids are never reused), currently connected sockets, the
per-socket session fields, the adapter room table, and the two global maps
`roomCreator` and `locationHistory` of the source. -/
structure ServerState where
  used : List String
  connected : List String
  sessions : String → Option Session
  rooms : String → Option (List String)
  roomCreator : String → Option String
  locationHistory : String → Option (List LocRecord)

/-- State at process start: both global maps empty, no socket connected. -/
def initState : ServerState :=
  { used := [], connected := [], sessions := fun _ => none,
    rooms := fun _ => none, roomCreator := fun _ => none,
    locationHistory := fun _ => none }

/-- A socket connects: the transport records the fresh id, creates the
socket object (session fields undefined) and puts the socket in the room
named by its own id. -/
def connect (st : ServerState) (sid : String) : ServerState :=
  { st with
    used := sid :: st.used
    connected := sid :: st.connected
    sessions := mapSet st.sessions sid { roomId := none, nickname := none }
    rooms := adapterJoin st.rooms sid sid }

/-- The `createRoom` handler, lines 52-110: generate a short id, join it,
set the nickname (`data.nickname || socket.id`), initialize the room's
history to `[]`, append an initial record when a position was supplied
(the file write and the awaited supabase insert only log their errors, so
`dbError` has no effect on this state), emit `roomCreated` back to the
requester, record the creator and bind `socket.roomId`. -/
def createRoom (st : ServerState) (sid : String) (dNickname : Option String)
    (dPosition : Option Position) (r36 : String) (ts : Nat) (dbError : Bool) :
    ServerState × List Emit :=
  let roomId := genRoomId r36
  let rooms1 := adapterJoin st.rooms sid roomId
  let nickname := jsOr dNickname sid
  let totalRoomUsers := (rooms1 roomId).getD []
  let hist1 :=
    match dPosition with
    | some p =>
      mapSet st.locationHistory roomId
        [{ room_id := roomId, user_id := sid, nickname := some nickname,
           position := some p, timestamp := ts }]
    | none => mapSet st.locationHistory roomId []
  ({ st with
      rooms := rooms1
      sessions := mapSet st.sessions sid
        { roomId := some roomId, nickname := some nickname }
      roomCreator := mapSet st.roomCreator roomId sid
      locationHistory := hist1 },
   [{ recipients := [sid],
      msg := EventMsg.roomCreated roomId dPosition totalRoomUsers nickname }])

/-- The `joinRoom` handler, lines 112-143: if the adapter has a room of
that name the socket joins it, `socket.roomId` and `socket.nickname` are
(re)assigned, the room's creator - when registered and still connected -
is notified with `userJoinedRoom`, and `roomJoined {status OK}` goes back
to the requester through `io.to(socket.id)` (the requester's self-room);
otherwise only `roomJoined {status ERROR}` is sent the same way. -/
def joinRoom (st : ServerState) (sid roomIdReq : String)
    (dNickname : Option String) : ServerState × List Emit :=
  match st.rooms roomIdReq with
  | some _ =>
    let rooms1 := adapterJoin st.rooms sid roomIdReq
    let nickname := jsOr dNickname sid
    let creatorEmits :=
      match st.roomCreator roomIdReq with
      | some c =>
        if c ∈ st.connected then
          [{ recipients := [c],
             msg := EventMsg.userJoinedRoom sid nickname
               ((rooms1 roomIdReq).getD []) }]
        else []
      | none => []
    ({ st with
        rooms := rooms1
        sessions := mapSet st.sessions sid
          { roomId := some roomIdReq, nickname := some nickname } },
     creatorEmits ++
       [{ recipients := (rooms1 sid).getD [],
          msg := EventMsg.roomJoinedOk nickname }])
  | none =>
    (st, [{ recipients := (st.rooms sid).getD [],
            msg := EventMsg.roomJoinedError }])

/-- The `updateLocation` handler, lines 150-203.  The body is guarded by
the JS truthiness test `if (roomId)` (line 152): with no bound
`socket.roomId`, or with a roomId bound to the falsy empty string, the
update is silently dropped.  Otherwise the handler
builds the record and runs `locationHistory[roomId].push(update)`: when
that room's history was never initialized this is `undefined.push` - a
thrown `TypeError`, modelled as `Except.error ()` (an unhandled rejection
of the async handler; nothing has been mutated at that point).  On the
initialized path the record is appended, `fs.writeFile` is started
fire-and-forget (its error only logged), the supabase insert is `await`ed
(its error, `dbError`, also only logged), and only then is
`updateLocationResponse` broadcast with the raw client `data` to the
adapter's member list of the room.  The returned action list records the
order of those four steps. -/
def updateLocation (st : ServerState) (sid : String) (data : UpdateData)
    (ts : Nat) (dbError : Bool) :
    Except Unit (ServerState × List Emit × List UpdAction) :=
  match jsTruthyStr ((st.sessions sid).bind (fun s => s.roomId)) with
  | none => Except.ok (st, [], [])
  | some r =>
    let update : LocRecord :=
      { room_id := r, user_id := sid,
        nickname := (st.sessions sid).bind (fun s => s.nickname),
        position := data.position, timestamp := ts }
    match st.locationHistory r with
    | none => Except.error ()
    | some l =>
      Except.ok
        ({ st with locationHistory := mapSet st.locationHistory r (l ++ [update]) },
         [{ recipients := (st.rooms r).getD [],
            msg := EventMsg.updateLocationResponse data }],
         [UpdAction.appendMem, UpdAction.fsWriteStart,
          UpdAction.awaitDbInsert, UpdAction.broadcast])

/-- The `getLocationHistory` handler, lines 205-210: reply to the sender
only, with `locationHistory[data.roomId] || []`; no membership or
liveness check of any kind. -/
def getLocationHistory (st : ServerState) (sid roomIdReq : String) :
    ServerState × List Emit :=
  (st, [{ recipients := [sid],
          msg := EventMsg.locationHistoryMsg
            ((st.locationHistory roomIdReq).getD []) }])

/-- The `disconnect` handler, lines 212-247, composed with the transport
effects that precede it: by the time the event fires the socket has left
every room (empty rooms dropped) and is gone from the namespace table.
Then, if `socket.roomId` is truthy (line 216 `if (roomId)` - an unbound
or empty-string roomId skips the whole branch): when this socket is the
registered
creator of that room, one `roomDestroyed {status OK}` is emitted through
`io.to(memberId)` for every socket still listed in the room, after which
the adapter entry and the creator entry are deleted; otherwise
`socket.leave` runs (a no-op by now) and the creator, if registered and
still connected, gets `userLeftRoom`.  The session is discarded with the
socket object. -/
def disconnect (st : ServerState) (sid : String) : ServerState × List Emit :=
  let rooms0 := adapterLeaveAll st.rooms sid
  let connected0 := st.connected.erase sid
  match jsTruthyStr ((st.sessions sid).bind (fun s => s.roomId)) with
  | none =>
    ({ st with
        rooms := rooms0
        connected := connected0
        sessions := mapDel st.sessions sid }, [])
  | some r =>
    if st.roomCreator r = some sid then
      let emits :=
        match rooms0 r with
        | some us =>
          us.map (fun u =>
            { recipients := (rooms0 u).getD [], msg := EventMsg.roomDestroyed })
        | none => []
      ({ st with
          rooms := mapDel rooms0 r
          connected := connected0
          sessions := mapDel st.sessions sid
          roomCreator := mapDel st.roomCreator r }, emits)
    else
      let rooms1 := adapterLeave rooms0 sid r
      let emits :=
        match st.roomCreator r with
        | some c =>
          if c ∈ connected0 then
            [{ recipients := [c],
               msg := EventMsg.userLeftRoom sid ((rooms1 r).getD []) }]
          else []
        | none => []
      ({ st with
          rooms := rooms1
          connected := connected0
          sessions := mapDel st.sessions sid }, emits)

/-- The successful result's state of an `updateLocation` run (the
pre-thrown-error in-memory state is not observable, so the error case is
mapped to `initState`; it is never used there). -/
def updState (st : ServerState)
    (r : Except Unit (ServerState × List Emit × List UpdAction)) : ServerState :=
  match r with
  | Except.ok x => x.1
  | Except.error _ => st

/-- The emissions of an `updateLocation` run (none when it threw). -/
def updEmits (r : Except Unit (ServerState × List Emit × List UpdAction)) :
    List Emit :=
  match r with
  | Except.ok x => x.2.1
  | Except.error _ => []

/-- The internal action order of an `updateLocation` run. -/
def updActs (r : Except Unit (ServerState × List Emit × List UpdAction)) :
    List UpdAction :=
  match r with
  | Except.ok x => x.2.2
  | Except.error _ => []

/-- One `updateLocation` request: sender, payload, capture time, and
whether the awaited supabase insert fails. -/
structure UpdReq where
  sid : String
  data : UpdateData
  ts : Nat
  dbe : Bool

/-- Run a sequence of `updateLocation` requests, stopping at a thrown
error. -/
def runUpdates : ServerState → List UpdReq → Except Unit ServerState
  | st, [] => Except.ok st
  | st, u :: us =>
    match updateLocation st u.sid u.data u.ts u.dbe with
    | Except.ok x => runUpdates x.1 us
    | Except.error e => Except.error e

/-- The inbound events of the public interface (§6 of the spec), with the
environment-chosen data (random id rendering, capture time, persistence
outcome) made explicit. -/
inductive Ev where
  | connect (sid : String)
  | createRoom (sid : String) (nickname : Option String)
      (position : Option Position) (r36 : String) (ts : Nat) (dbError : Bool)
  | joinRoom (sid : String) (roomId : String) (nickname : Option String)
  | updateLocation (sid : String) (data : UpdateData) (ts : Nat) (dbError : Bool)
  | getLocationHistory (sid : String) (roomId : String)
  | disconnect (sid : String)
deriving DecidableEq

/-- Transport-level validity of an event: a connect brings a never-used
id (socket.io ids are unique), every other event comes from a currently
connected socket. -/
def evOk (st : ServerState) : Ev → Bool
  | Ev.connect sid => decide (sid ∉ st.used)
  | Ev.createRoom sid _ _ _ _ _ => decide (sid ∈ st.connected)
  | Ev.joinRoom sid _ _ => decide (sid ∈ st.connected)
  | Ev.updateLocation sid _ _ _ => decide (sid ∈ st.connected)
  | Ev.getLocationHistory sid _ => decide (sid ∈ st.connected)
  | Ev.disconnect sid => decide (sid ∈ st.connected)

/-- One step of the server: dispatch the event to its handler.  A thrown
`updateLocation` error leaves the in-memory state as it was at the throw
(nothing had been mutated) and emits nothing. -/
def applyEv (st : ServerState) : Ev → ServerState × List Emit
  | Ev.connect sid => (connect st sid, [])
  | Ev.createRoom sid n p r36 ts dbe => createRoom st sid n p r36 ts dbe
  | Ev.joinRoom sid r n => joinRoom st sid r n
  | Ev.updateLocation sid d ts dbe =>
    match updateLocation st sid d ts dbe with
    | Except.ok x => (x.1, x.2.1)
    | Except.error _ => (st, [])
  | Ev.getLocationHistory sid r => getLocationHistory st sid r
  | Ev.disconnect sid => disconnect st sid

/-- Fold a list of events over a state, keeping only the state. -/
def applyEvs : ServerState → List Ev → ServerState
  | st, [] => st
  | st, e :: es => applyEvs (applyEv st e).1 es

/-- States reachable from process start through transport-valid events. -/
inductive Reachable : ServerState → Prop
  | init : Reachable initState
  | step {s : ServerState} {e : Ev} :
      Reachable s → evOk s e = true → Reachable (applyEv s e).1

theorem mapSet_self {α : Type} (m : String → Option α) (k : String) (v : α) :
    mapSet m k v k = some v := by
  simp [mapSet]

theorem mapSet_other {α : Type} (m : String → Option α) (k : String) (v : α)
    {x : String} (h : x ≠ k) : mapSet m k v x = m x := by
  simp [mapSet, h]

theorem mapDel_self {α : Type} (m : String → Option α) (k : String) :
    mapDel m k k = none := by
  simp [mapDel]

theorem mapDel_other {α : Type} (m : String → Option α) (k : String)
    {x : String} (h : x ≠ k) : mapDel m k x = m x := by
  simp [mapDel, h]

theorem adapterJoin_other (rooms : String → Option (List String))
    (sid room : String) {r : String} (h : r ≠ room) :
    adapterJoin rooms sid room r = rooms r := by
  unfold adapterJoin
  cases hr : rooms room with
  | none => exact mapSet_other _ _ _ h
  | some l =>
    by_cases hm : sid ∈ l
    · simp [hm]
    · simp [hm, mapSet_other _ _ _ h]

theorem adapterJoin_self_mem (rooms : String → Option (List String))
    (sid room : String) :
    ∃ l, adapterJoin rooms sid room room = some l ∧ sid ∈ l := by
  unfold adapterJoin
  cases hr : rooms room with
  | none => exact ⟨[sid], mapSet_self _ _ _, by simp⟩
  | some l =>
    by_cases hm : sid ∈ l
    · exact ⟨l, by simp [hm, hr], hm⟩
    · exact ⟨l ++ [sid], by simp [hm, mapSet_self], by simp⟩

theorem adapterJoin_preserves (rooms : String → Option (List String))
    (sid room : String) {r c : String} {l : List String}
    (h : rooms r = some l) (hc : c ∈ l) :
    ∃ lp, adapterJoin rooms sid room r = some lp ∧ c ∈ lp := by
  by_cases he : r = room
  · subst he
    unfold adapterJoin
    rw [h]
    by_cases hm : sid ∈ l
    · exact ⟨l, by simp [hm, h], hc⟩
    · exact ⟨l ++ [sid], by simp [hm, mapSet_self], List.mem_append_left _ hc⟩
  · exact ⟨l, by rw [adapterJoin_other rooms sid room he, h], hc⟩

theorem adapterLeaveAll_preserves (rooms : String → Option (List String))
    (sid : String) {r c : String} {l : List String}
    (h : rooms r = some l) (hc : c ∈ l) (hne : c ≠ sid) :
    ∃ lp, adapterLeaveAll rooms sid r = some lp ∧ c ∈ lp := by
  refine ⟨l.erase sid, ?_, (List.mem_erase_of_ne hne).mpr hc⟩
  unfold adapterLeaveAll
  rw [h]
  have hmem : c ∈ l.erase sid := (List.mem_erase_of_ne hne).mpr hc
  simp [List.ne_nil_of_mem hmem]

theorem adapterLeave_preserves (rooms : String → Option (List String))
    (sid room : String) {r c : String} {l : List String}
    (h : rooms r = some l) (hc : c ∈ l) (hne : c ≠ sid) :
    ∃ lp, adapterLeave rooms sid room r = some lp ∧ c ∈ lp := by
  unfold adapterLeave
  cases hr : rooms room with
  | none => exact ⟨l, h, hc⟩
  | some l0 =>
    by_cases he : r = room
    · subst he
      rw [h] at hr
      cases hr
      have hmem : c ∈ l.erase sid := (List.mem_erase_of_ne hne).mpr hc
      refine ⟨l.erase sid, ?_, hmem⟩
      simp [List.ne_nil_of_mem hmem, mapSet_self]
    · by_cases hz : l0.erase sid = []
      · exact ⟨l, by simp [hz, mapDel_other _ _ he, h], hc⟩
      · exact ⟨l, by simp [hz, mapSet_other _ _ _ he, h], hc⟩

/-- Full characterization of a successful `updateLocation`: with a bound
room and an initialized history log, the record is appended in memory, the
raw client data is broadcast to the adapter's member list of the room, and
the handler's internal actions run in source order - the append first, the
awaited database insert third, the broadcast last.  The persistence
outcome `dbe` does not occur in the result. -/
theorem updateLocation_ok_spec (st : ServerState) (sid r : String)
    (nk : Option String) (data : UpdateData) (ts : Nat) (dbe : Bool)
    (l : List LocRecord)
    (hs : st.sessions sid = some { roomId := some r, nickname := nk })
    (hr : r ≠ "")
    (hh : st.locationHistory r = some l) :
    updateLocation st sid data ts dbe =
      Except.ok
        ({ st with
            locationHistory :=
              mapSet st.locationHistory r
                (l ++ [{ room_id := r, user_id := sid, nickname := nk,
                         position := data.position, timestamp := ts }]) },
         [{ recipients := (st.rooms r).getD [],
            msg := EventMsg.updateLocationResponse data }],
         [UpdAction.appendMem, UpdAction.fsWriteStart,
          UpdAction.awaitDbInsert, UpdAction.broadcast]) := by
  unfold updateLocation
  rw [hs]
  simp only [Option.some_bind, jsTruthyStr, if_neg hr]
  rw [hh]

/-- An `updateLocation` event never changes any state component other
than `locationHistory` (whether it succeeds, is dropped, or throws). -/
theorem updateLocation_frame (st : ServerState) (sid : String)
    (d : UpdateData) (ts : Nat) (dbe : Bool) :
    (applyEv st (Ev.updateLocation sid d ts dbe)).1.rooms = st.rooms ∧
    (applyEv st (Ev.updateLocation sid d ts dbe)).1.roomCreator = st.roomCreator ∧
    (applyEv st (Ev.updateLocation sid d ts dbe)).1.connected = st.connected ∧
    (applyEv st (Ev.updateLocation sid d ts dbe)).1.used = st.used ∧
    (applyEv st (Ev.updateLocation sid d ts dbe)).1.sessions = st.sessions := by
  unfold applyEv updateLocation
  cases hb : jsTruthyStr ((st.sessions sid).bind (fun s => s.roomId)) with
  | none => simp [hb]
  | some r =>
    cases hh : st.locationHistory r with
    | none => simp [hb, hh]
    | some l => simp [hb, hh]

/-- A `disconnect` never changes `locationHistory`. -/
theorem disconnect_locationHistory (st : ServerState) (sid : String) :
    (disconnect st sid).1.locationHistory = st.locationHistory := by
  unfold disconnect
  cases hb : jsTruthyStr ((st.sessions sid).bind (fun s => s.roomId)) with
  | none => rfl
  | some r =>
    by_cases hc : st.roomCreator r = some sid
    · simp [hc]
    · simp [hc]

/-- Demo trace: socket `A` connects and creates the room `rooma`. -/
def demoState : ServerState :=
  applyEvs initState
    [Ev.connect "A", Ev.createRoom "A" none none "0.rooma" 0 false]

/-- Demo trace: `A` creates `rooma` as Alice, then `B` joins it as Bob. -/
def demoRoom : ServerState :=
  applyEvs initState
    [Ev.connect "A", Ev.createRoom "A" (some "Alice") none "0.rooma" 0 false,
     Ev.connect "B", Ev.joinRoom "B" "rooma" (some "Bob")]

/-- Demo trace: two creators, `A` owning `aaaaa` and `B` owning `bbbbb`. -/
def demoTwoRooms : ServerState :=
  applyEvs initState
    [Ev.connect "A", Ev.createRoom "A" none none "0.aaaaa" 0 false,
     Ev.connect "B", Ev.createRoom "B" none none "0.bbbbb" 0 false]

/-- Demo trace: `A` connects and then joins the transport self-room named
by its own socket id, which `rooms.has` reports as an existing room. -/
def demoSelfJoin : ServerState :=
  applyEvs initState [Ev.connect "A", Ev.joinRoom "A" "A" none]

/-- Demo trace of the creator-rebinding anomaly: `A` creates `rooma`,
`B` joins it, then `A` joins `B`'s self-room, which reassigns `A`'s
session to room `B` while `A` is still the registered creator of
`rooma`. -/
def demoRebound : ServerState :=
  applyEvs initState
    [Ev.connect "A", Ev.createRoom "A" none none "0.rooma" 0 false,
     Ev.connect "B", Ev.joinRoom "B" "rooma" none, Ev.joinRoom "A" "B" none]

/-- Claim C1 is refuted at a concrete input: from a fresh connection `A`,
a `joinRoom` naming the unregistered id `zzz99` is answered with
`roomJoined {status ERROR}` (not OK), and no room is created - no creator
entry, no history log, and the session stays unbound. -/
theorem C1_counterexample :
    (joinRoom (connect initState "A") "A" "zzz99" none).2 =
      [{ recipients := ["A"], msg := EventMsg.roomJoinedError }] ∧
    (joinRoom (connect initState "A") "A" "zzz99" none).1.roomCreator "zzz99" = none ∧
    (joinRoom (connect initState "A") "A" "zzz99" none).1.locationHistory "zzz99" = none ∧
    ((joinRoom (connect initState "A") "A" "zzz99" none).1.sessions "A").bind
      (fun s => s.roomId) = none := by
  decide

/-- Claim C1, corrected: a join request naming a roomId that is not a
registered room (absent from the adapter table) does NOT implicitly
create it - the server replies `roomJoined {status ERROR}` to the
requester through its self-room and leaves the whole state unchanged;
rooms come into being only through the separate `createRoom` request. -/
theorem C1_join_unknown_rejected (st : ServerState) (sid roomIdReq : String)
    (dNickname : Option String) (h : st.rooms roomIdReq = none) :
    joinRoom st sid roomIdReq dNickname =
      (st, [{ recipients := (st.rooms sid).getD [],
              msg := EventMsg.roomJoinedError }]) := by
  unfold joinRoom
  rw [h]

/-- Witness for `C1_join_unknown_rejected` at a concrete input. -/
theorem C1_witness :
    (connect initState "A").rooms "zzz99" = none ∧
    joinRoom (connect initState "A") "A" "zzz99" none =
      (connect initState "A",
       [{ recipients := ((connect initState "A").rooms "A").getD [],
          msg := EventMsg.roomJoinedError }]) :=
  ⟨by decide,
   C1_join_unknown_rejected (connect initState "A") "A" "zzz99" none (by decide)⟩

/-- Claim C2 is refuted at a concrete input: `A`, whose session is bound
to its own room `aaaaa`, joins the other live room `bbbbb` and is NOT
rejected - it receives `roomJoined {status OK}` (there is no AlreadyInRoom
error anywhere in the code) and its session's roomId is reassigned from
`aaaaa` to `bbbbb`. -/
theorem C2_counterexample :
    demoTwoRooms.sessions "A" =
      some { roomId := some "aaaaa", nickname := some "A" } ∧
    (joinRoom demoTwoRooms "A" "bbbbb" none).2.map Emit.msg =
      [EventMsg.userJoinedRoom "A" "A" ["B", "A"], EventMsg.roomJoinedOk "A"] ∧
    (joinRoom demoTwoRooms "A" "bbbbb" none).1.sessions "A" =
      some { roomId := some "bbbbb", nickname := some "A" } := by
  decide

/-- Claim C2, corrected: a join request for an existing room B from a
session already bound to a different room A is not rejected - the handler
performs no AlreadyInRoom check.  The join succeeds: the session's roomId
is reassigned to B, the last message sent is `roomJoined {status OK}` to
the requester, and the socket also remains in room A's member set (the
adapter entry of A is untouched). -/
theorem C2_rebind_succeeds (st : ServerState) (sid roomA roomB : String)
    (nk : Option String) (dNickname : Option String) (l : List String)
    (hs : st.sessions sid = some { roomId := some roomA, nickname := nk })
    (hB : st.rooms roomB = some l) (hne : roomA ≠ roomB) :
    (joinRoom st sid roomB dNickname).1.sessions sid =
      some { roomId := some roomB, nickname := some (jsOr dNickname sid) } ∧
    ((joinRoom st sid roomB dNickname).2.map Emit.msg).getLast? =
      some (EventMsg.roomJoinedOk (jsOr dNickname sid)) ∧
    (joinRoom st sid roomB dNickname).1.rooms roomA = st.rooms roomA := by
  unfold joinRoom
  rw [hB]
  refine ⟨mapSet_self _ _ _, ?_, adapterJoin_other st.rooms sid roomB hne⟩
  simp

/-- Witness for `C2_rebind_succeeds` at a concrete input. -/
theorem C2_witness :
    demoTwoRooms.sessions "A" =
      some { roomId := some "aaaaa", nickname := some "A" } ∧
    demoTwoRooms.rooms "bbbbb" = some ["B"] ∧
    ((joinRoom demoTwoRooms "A" "bbbbb" none).1.sessions "A" =
        some { roomId := some "bbbbb", nickname := some (jsOr none "A") } ∧
      ((joinRoom demoTwoRooms "A" "bbbbb" none).2.map Emit.msg).getLast? =
        some (EventMsg.roomJoinedOk (jsOr none "A")) ∧
      (joinRoom demoTwoRooms "A" "bbbbb" none).1.rooms "aaaaa" =
        demoTwoRooms.rooms "aaaaa") :=
  ⟨by decide, by decide,
   C2_rebind_succeeds demoTwoRooms "A" "aaaaa" "bbbbb" (some "A") none ["B"]
     (by decide) (by decide) (by decide)⟩

/-- Claim C3 is refuted at a concrete input: in the `updateLocation`
handler's own action order, the `await`ed supabase insert
(`awaitDbInsert`) comes strictly before the in-memory broadcast - the
processing does wait on the durable-persistence write before emitting
`updateLocationResponse`. -/
theorem C3_counterexample :
    updActs (updateLocation demoRoom "B"
        { position := some { lat := 3, lng := 4 } } 7 true) =
      [UpdAction.appendMem, UpdAction.fsWriteStart,
       UpdAction.awaitDbInsert, UpdAction.broadcast] ∧
    (updActs (updateLocation demoRoom "B"
        { position := some { lat := 3, lng := 4 } } 7 true)).indexOf
        UpdAction.awaitDbInsert <
      (updActs (updateLocation demoRoom "B"
        { position := some { lat := 3, lng := 4 } } 7 true)).indexOf
        UpdAction.broadcast := by
  decide

/-- Claim C3, corrected: for an update the handler actually processes
(session bound to a truthy, i.e. nonempty, room id - the `if (roomId)`
guard drops empty-id updates outright), a persistence failure indeed
never rolls back the in-memory append nor suppresses the broadcast - the
handler's result is independent of the insert's outcome `dbe`, the record
is appended and the broadcast emitted either way.  But the write is not
fire-and-forget: the handler `await`s the supabase insert before emitting
the broadcast, so the broadcast action follows the awaited persistence
write in the handler's action order (only the JSON-file `fs.writeFile` is
fire-and-forget). -/
theorem C3_append_kept_broadcast_after_await (st : ServerState) (sid r : String)
    (nk : Option String) (data : UpdateData) (ts : Nat) (dbe : Bool)
    (l : List LocRecord)
    (hs : st.sessions sid = some { roomId := some r, nickname := nk })
    (hr : r ≠ "")
    (hh : st.locationHistory r = some l) :
    (updState st (updateLocation st sid data ts dbe)).locationHistory r =
      some (l ++ [{ room_id := r, user_id := sid, nickname := nk,
                    position := data.position, timestamp := ts }]) ∧
    updEmits (updateLocation st sid data ts dbe) =
      [{ recipients := (st.rooms r).getD [],
         msg := EventMsg.updateLocationResponse data }] ∧
    updActs (updateLocation st sid data ts dbe) =
      [UpdAction.appendMem, UpdAction.fsWriteStart,
       UpdAction.awaitDbInsert, UpdAction.broadcast] ∧
    updateLocation st sid data ts true = updateLocation st sid data ts false := by
  have h1 := updateLocation_ok_spec st sid r nk data ts dbe l hs hr hh
  have ht := updateLocation_ok_spec st sid r nk data ts true l hs hr hh
  have hf := updateLocation_ok_spec st sid r nk data ts false l hs hr hh
  refine ⟨?_, ?_, ?_, ?_⟩
  · rw [h1]; simp [updState, mapSet_self]
  · rw [h1]; rfl
  · rw [h1]; rfl
  · rw [ht, hf]

/-- Witness for `C3_append_kept_broadcast_after_await` at a concrete
input (a failing insert, `dbe = true`). -/
theorem C3_witness :
    demoRoom.sessions "B" =
      some { roomId := some "rooma", nickname := some "Bob" } ∧
    ("rooma" : String) ≠ "" ∧
    demoRoom.locationHistory "rooma" = some [] ∧
    ((updState demoRoom (updateLocation demoRoom "B"
          { position := some { lat := 3, lng := 4 } } 7 true)).locationHistory
        "rooma" =
      some ([] ++ [{ room_id := "rooma", user_id := "B", nickname := some "Bob",
                     position := some { lat := 3, lng := 4 }, timestamp := 7 }]) ∧
      updEmits (updateLocation demoRoom "B"
          { position := some { lat := 3, lng := 4 } } 7 true) =
        [{ recipients := (demoRoom.rooms "rooma").getD [],
           msg := EventMsg.updateLocationResponse
             { position := some { lat := 3, lng := 4 } } }] ∧
      updActs (updateLocation demoRoom "B"
          { position := some { lat := 3, lng := 4 } } 7 true) =
        [UpdAction.appendMem, UpdAction.fsWriteStart,
         UpdAction.awaitDbInsert, UpdAction.broadcast] ∧
      updateLocation demoRoom "B" { position := some { lat := 3, lng := 4 } } 7 true =
        updateLocation demoRoom "B" { position := some { lat := 3, lng := 4 } } 7 false) :=
  ⟨by decide, by decide, by decide,
   C3_append_kept_broadcast_after_await demoRoom "B" "rooma" (some "Bob")
     { position := some { lat := 3, lng := 4 } } 7 true []
     (by decide) (by decide) (by decide)⟩

/-- Claim C5 is refuted at a concrete input: `A` joins its own transport
self-room `A` (which the adapter reports as an existing room, so the join
is answered `roomJoined {status OK}` and the registry considers the room
live), and the following `updateLocation` reaches
`locationHistory[roomId].push` with an uninitialized log - the handler
throws (`undefined.push`, an unhandled rejection) instead of logging,
dropping the update and broadcasting. -/
theorem C5_counterexample :
    (applyEv (connect initState "A") (Ev.joinRoom "A" "A" none)).2 =
      [{ recipients := ["A"], msg := EventMsg.roomJoinedOk "A" }] ∧
    demoSelfJoin.sessions "A" =
      some { roomId := some "A", nickname := some "A" } ∧
    demoSelfJoin.rooms "A" = some ["A"] ∧
    demoSelfJoin.locationHistory "A" = none ∧
    updateLocation demoSelfJoin "A"
        { position := some { lat := 1, lng := 2 } } 0 false =
      Except.error () := by
  refine ⟨by decide, by decide, by decide, by decide, ?_⟩
  rfl

/-- Claim C5, corrected: the `updateLocation` handler is not total at the
public interface.  An update whose session is bound to a truthy (nonempty)
room id whose history log was never initialized throws an unhandled
TypeError (`undefined.push`): the update is not gracefully dropped and no
broadcast is emitted.  The silent-drop paths are exactly those where
`socket.roomId` is falsy under the `if (roomId)` guard - unbound, or
bound to the empty string (which the id generator can produce): those
leave the state unchanged and emit nothing. -/
theorem C5_uninitialized_history_throws :
    (∀ (st : ServerState) (sid r : String) (nk : Option String)
        (data : UpdateData) (ts : Nat) (dbe : Bool),
      st.sessions sid = some { roomId := some r, nickname := nk } →
      r ≠ "" →
      st.locationHistory r = none →
      updateLocation st sid data ts dbe = Except.error ()) ∧
    (∀ (st : ServerState) (sid : String) (data : UpdateData) (ts : Nat)
        (dbe : Bool),
      jsTruthyStr ((st.sessions sid).bind (fun s => s.roomId)) = none →
      updateLocation st sid data ts dbe = Except.ok (st, [], [])) := by
  constructor
  · intro st sid r nk data ts dbe hs hr hh
    unfold updateLocation
    rw [hs]
    simp only [Option.some_bind, jsTruthyStr, if_neg hr]
    rw [hh]
  · intro st sid data ts dbe hb
    unfold updateLocation
    rw [hb]

/-- Demo trace of an empty generated room id: `Math.random()` rendered
`"0"`, so `createRoom` binds `socket.roomId = ""` - falsy for the later
`if (roomId)` guards. -/
def demoEmptyId : ServerState :=
  applyEvs initState [Ev.connect "A", Ev.createRoom "A" none none "0" 0 false]

/-- Witness for `C5_uninitialized_history_throws` at concrete inputs:
the self-room join gives a bound nonempty id with no history log (throw),
and a session bound to the empty generated id is silently dropped. -/
theorem C5_witness :
    demoSelfJoin.sessions "A" =
      some { roomId := some "A", nickname := some "A" } ∧
    ("A" : String) ≠ "" ∧
    demoSelfJoin.locationHistory "A" = none ∧
    updateLocation demoSelfJoin "A"
        { position := some { lat := 3, lng := 4 } } 1 true =
      Except.error () ∧
    demoEmptyId.sessions "A" = some { roomId := some "", nickname := some "A" } ∧
    jsTruthyStr ((demoEmptyId.sessions "A").bind (fun s => s.roomId)) = none ∧
    updateLocation demoEmptyId "A"
        { position := some { lat := 3, lng := 4 } } 1 true =
      Except.ok (demoEmptyId, [], []) :=
  ⟨by decide, by decide, by decide,
   C5_uninitialized_history_throws.1 demoSelfJoin "A" "A" (some "A")
     { position := some { lat := 3, lng := 4 } } 1 true (by decide) (by decide)
     (by decide),
   by decide, by decide,
   C5_uninitialized_history_throws.2 demoEmptyId "A"
     { position := some { lat := 3, lng := 4 } } 1 true (by decide)⟩

/-- Claim C6 is refuted at a concrete input: the broadcasts produced by
the same `updateLocation` payload from two different members (`A` alias
Alice, `B` alias Bob) are identical emissions - the payload is the raw
client `data` and carries neither the sender's connection id nor its
nickname, so it cannot identify the sender. -/
theorem C6_counterexample :
    updEmits (updateLocation demoRoom "A"
        { position := some { lat := 1, lng := 2 } } 5 false) =
      updEmits (updateLocation demoRoom "B"
        { position := some { lat := 1, lng := 2 } } 5 false) ∧
    (updEmits (updateLocation demoRoom "B"
        { position := some { lat := 1, lng := 2 } } 5 false)).map Emit.msg =
      [EventMsg.updateLocationResponse
        { position := some { lat := 1, lng := 2 } }] ∧
    demoRoom.sessions "A" =
      some { roomId := some "rooma", nickname := some "Alice" } ∧
    demoRoom.sessions "B" =
      some { roomId := some "rooma", nickname := some "Bob" } := by
  decide

/-- Claim C6, corrected: an `updateLocation` from a joined member (bound
to a truthy, i.e. nonempty, room id - the `if (roomId)` guard silently
drops empty-id updates, see C5) is broadcast to every member of the
sender's room including the sender itself, but its payload is exactly the
client-sent data (the position) - the sender's connection id and nickname
are not in the broadcast (they are recorded only in the appended history
record). -/
theorem C6_broadcast_members_raw_payload (st : ServerState) (sid r nick : String)
    (data : UpdateData) (ts : Nat) (dbe : Bool) (l : List LocRecord)
    (mems : List String)
    (hs : st.sessions sid = some { roomId := some r, nickname := some nick })
    (hr : r ≠ "")
    (hh : st.locationHistory r = some l)
    (hm : st.rooms r = some mems) (hin : sid ∈ mems) :
    updEmits (updateLocation st sid data ts dbe) =
      [{ recipients := mems, msg := EventMsg.updateLocationResponse data }] ∧
    (∀ u ∈ mems,
      deliveredTo (updEmits (updateLocation st sid data ts dbe)) u =
        [EventMsg.updateLocationResponse data]) ∧
    deliveredTo (updEmits (updateLocation st sid data ts dbe)) sid =
      [EventMsg.updateLocationResponse data] ∧
    (updState st (updateLocation st sid data ts dbe)).locationHistory r =
      some (l ++ [{ room_id := r, user_id := sid, nickname := some nick,
                    position := data.position, timestamp := ts }]) := by
  have h1 := updateLocation_ok_spec st sid r (some nick) data ts dbe l hs hr hh
  have he : updEmits (updateLocation st sid data ts dbe) =
      [{ recipients := mems, msg := EventMsg.updateLocationResponse data }] := by
    rw [h1, hm]; rfl
  refine ⟨he, ?_, ?_, ?_⟩
  · intro u hu
    rw [he]
    simp [deliveredTo, hu]
  · rw [he]
    simp [deliveredTo, hin]
  · rw [h1]
    simp [updState, mapSet_self]

/-- Witness for `C6_broadcast_members_raw_payload` at a concrete input. -/
theorem C6_witness :
    demoRoom.sessions "B" =
      some { roomId := some "rooma", nickname := some "Bob" } ∧
    ("rooma" : String) ≠ "" ∧
    demoRoom.locationHistory "rooma" = some [] ∧
    demoRoom.rooms "rooma" = some ["A", "B"] ∧
    "B" ∈ ["A", "B"] ∧
    (updEmits (updateLocation demoRoom "B"
        { position := some { lat := 1, lng := 2 } } 5 false) =
      [{ recipients := ["A", "B"],
         msg := EventMsg.updateLocationResponse
           { position := some { lat := 1, lng := 2 } } }] ∧
    (∀ u ∈ ["A", "B"],
      deliveredTo (updEmits (updateLocation demoRoom "B"
          { position := some { lat := 1, lng := 2 } } 5 false)) u =
        [EventMsg.updateLocationResponse
          { position := some { lat := 1, lng := 2 } }]) ∧
    deliveredTo (updEmits (updateLocation demoRoom "B"
        { position := some { lat := 1, lng := 2 } } 5 false)) "B" =
      [EventMsg.updateLocationResponse
        { position := some { lat := 1, lng := 2 } }] ∧
    (updState demoRoom (updateLocation demoRoom "B"
        { position := some { lat := 1, lng := 2 } } 5 false)).locationHistory
        "rooma" =
      some ([] ++ [{ room_id := "rooma", user_id := "B", nickname := some "Bob",
                     position := some { lat := 1, lng := 2 },
                     timestamp := 5 }])) :=
  ⟨by decide, by decide, by decide, by decide, by decide,
   C6_broadcast_members_raw_payload demoRoom "B" "rooma" "Bob"
     { position := some { lat := 1, lng := 2 } } 5 false [] ["A", "B"]
     (by decide) (by decide) (by decide) (by decide) (by decide)⟩

/-- Claim C7, confirmed (stated for every state and every disconnecting
socket, in particular a room creator): a `disconnect` never changes any
room's location history, and a `getLocationHistory` for the destroyed id
afterwards still returns exactly the records captured before. -/
theorem C7_history_survives_destroy (st : ServerState) (sid sid2 r : String) :
    (disconnect st sid).1.locationHistory r = st.locationHistory r ∧
    (getLocationHistory (disconnect st sid).1 sid2 r).2 =
      [{ recipients := [sid2],
         msg := EventMsg.locationHistoryMsg
           ((st.locationHistory r).getD []) }] := by
  have h := disconnect_locationHistory st sid
  constructor
  · rw [h]
  · unfold getLocationHistory
    rw [h]

/-- Claim C10, confirmed: any outcome of
`Math.random().toString(36).substring(2, 7)` is at most five characters,
all from the base-36 alphabet `[0-9a-z]`; some outcomes are strictly
shorter - `(0).toString(36) = "0"` yields the empty id; and `createRoom`
uses the generated id without any collision recheck: even when the id is
already registered to another creator, the handler simply overwrites the
creator entry. -/
theorem C10_room_id_shape :
    (∀ s : String, isRand36 s →
      (genRoomId s).length ≤ 5 ∧ ∀ c ∈ (genRoomId s).toList, c ∈ base36Chars) ∧
    (isRand36 "0" ∧ genRoomId "0" = "") ∧
    (∀ (st : ServerState) (sid : String) (dNickname : Option String)
        (dPosition : Option Position) (r36 : String) (ts : Nat) (dbe : Bool)
        (c0 : String),
      st.roomCreator (genRoomId r36) = some c0 →
      (createRoom st sid dNickname dPosition r36 ts dbe).1.roomCreator
        (genRoomId r36) = some sid) := by
  refine ⟨?_, ⟨Or.inl rfl, by decide⟩, ?_⟩
  · intro s h
    rcases h with h0 | ⟨ds, hne, hall, hs⟩
    · subst h0
      exact ⟨by decide, by decide⟩
    · subst hs
      constructor
      · show (String.mk ((('0' :: '.' :: ds).drop 2).take (7 - 2))).length ≤ 5
        simp [String.length, List.length_take]
      · intro c hc
        have hc2 : c ∈ ds.take 5 := hc
        exact hall c (List.take_subset 5 ds hc2)
  · intro st sid dNickname dPosition r36 ts dbe c0 h0
    cases dPosition with
    | none => exact mapSet_self _ _ _
    | some p => exact mapSet_self _ _ _

/-- Witness for `C10_room_id_shape` at concrete inputs: a long rendering
is clipped to five base-36 characters, and a `createRoom` whose generated
id collides with the live room `rooma` overwrites the creator entry. -/
theorem C10_witness :
    isRand36 "0.abcdefgh" ∧
    ((genRoomId "0.abcdefgh").length ≤ 5 ∧
      ∀ c ∈ (genRoomId "0.abcdefgh").toList, c ∈ base36Chars) ∧
    demoState.roomCreator (genRoomId "0.rooma") = some "A" ∧
    (createRoom demoState "Z" none none "0.rooma" 9 false).1.roomCreator
      (genRoomId "0.rooma") = some "Z" := by
  have hr : isRand36 "0.abcdefgh" :=
    Or.inr ⟨['a', 'b', 'c', 'd', 'e', 'f', 'g', 'h'], by decide, by decide,
      by decide⟩
  exact ⟨hr, C10_room_id_shape.1 "0.abcdefgh" hr, by decide,
    C10_room_id_shape.2.2 demoState "Z" none none "0.rooma" 9 false "A"
      (by decide)⟩

/-- The record an `updateLocation` request from `u.sid` appends for room
`r` in state `st` (the handler's `update` object, lines 156-162). -/
def mkRec (st : ServerState) (r : String) (u : UpdReq) : LocRecord :=
  { room_id := r, user_id := u.sid,
    nickname := (st.sessions u.sid).bind (fun x => x.nickname),
    position := u.data.position, timestamp := u.ts }

/-- Claim C8, confirmed for the updates the handler accepts.  First
conjunct: any sequence of `updateLocation` requests from sessions bound
to one room with a truthy (nonempty) id - an update bound to the falsy
empty id is not accepted but silently dropped by `if (roomId)`, see C5 -
appends its records to that room's log in exactly arrival order (and
never touches the sessions).  Second and third conjuncts: a `getLocationHistory` for an
id with no recorded history answers the requester with the empty sequence
instead of failing, and in general the reply depends only on the history
map - the handler consults neither the adapter membership nor the creator
registry, so there is no membership check. -/
theorem C8_append_order_and_graceful_history :
    (∀ (ups : List UpdReq) (st : ServerState) (r : String) (l0 : List LocRecord),
      r ≠ "" →
      st.locationHistory r = some l0 →
      (∀ u ∈ ups, (st.sessions u.sid).bind (fun x => x.roomId) = some r) →
      ∃ stp, runUpdates st ups = Except.ok stp ∧ stp.sessions = st.sessions ∧
        stp.locationHistory r = some (l0 ++ ups.map (mkRec st r))) ∧
    (∀ (st : ServerState) (sid rid : String), st.locationHistory rid = none →
      (getLocationHistory st sid rid).2 =
        [{ recipients := [sid], msg := EventMsg.locationHistoryMsg [] }]) ∧
    (∀ (st : ServerState) (sid rid : String),
      (getLocationHistory st sid rid).2 =
        [{ recipients := [sid], msg := EventMsg.locationHistoryMsg
            ((st.locationHistory rid).getD []) }]) := by
  refine ⟨?_, ?_, ?_⟩
  · intro ups
    induction ups with
    | nil =>
      intro st r l0 hr hh hall
      exact ⟨st, rfl, rfl, by simpa using hh⟩
    | cons u us ih =>
      intro st r l0 hr hh hall
      have hbu : (st.sessions u.sid).bind (fun x => x.roomId) = some r :=
        hall u (List.mem_cons_self u us)
      obtain ⟨s0, hs0⟩ : ∃ s0, st.sessions u.sid = some s0 := by
        cases hq : st.sessions u.sid with
        | none => rw [hq] at hbu; exact absurd hbu (by simp)
        | some s0 => exact ⟨s0, rfl⟩
      have hr0 : s0.roomId = some r := by
        rw [hs0] at hbu; simpa using hbu
      have hs9 : st.sessions u.sid =
          some { roomId := some r, nickname := s0.nickname } := by
        rw [hs0]
        cases s0
        simp_all
      have hspec := updateLocation_ok_spec st u.sid r s0.nickname u.data u.ts
        u.dbe l0 hs9 hr hh
      have hstep : runUpdates st (u :: us) =
          runUpdates ({ st with
            locationHistory :=
              mapSet st.locationHistory r
                (l0 ++ [{ room_id := r, user_id := u.sid,
                          nickname := s0.nickname,
                          position := u.data.position,
                          timestamp := u.ts }]) }) us := by
        rw [runUpdates, hspec]
      have hrecu : mkRec st r u =
          { room_id := r, user_id := u.sid, nickname := s0.nickname,
            position := u.data.position, timestamp := u.ts } := by
        simp [mkRec, hs0]
      obtain ⟨stp, hrunp, hsessp, hhistp⟩ :=
        ih ({ st with
              locationHistory :=
                mapSet st.locationHistory r
                  (l0 ++ [{ room_id := r, user_id := u.sid,
                            nickname := s0.nickname,
                            position := u.data.position,
                            timestamp := u.ts }]) }) r
          (l0 ++ [{ room_id := r, user_id := u.sid, nickname := s0.nickname,
                    position := u.data.position, timestamp := u.ts }])
          hr
          (mapSet_self _ _ _)
          (fun v hv => hall v (List.mem_cons_of_mem u hv))
      refine ⟨stp, by rw [hstep]; exact hrunp, hsessp, ?_⟩
      rw [hhistp, List.map_cons, hrecu]
      have hmap : mkRec ({ st with
          locationHistory :=
            mapSet st.locationHistory r
              (l0 ++ [{ room_id := r, user_id := u.sid,
                        nickname := s0.nickname,
                        position := u.data.position,
                        timestamp := u.ts }]) }) r = mkRec st r := rfl
      rw [hmap]
      simp
  · intro st sid rid hh
    unfold getLocationHistory
    rw [hh]
    rfl
  · intro st sid rid
    rfl

/-- Witness for `C8_append_order_and_graceful_history` at a concrete
input: two updates (Alice then Bob) land in the log in arrival order, and
the history request for the never-initialized id `ghost9` from the
non-member `C` gets the empty sequence. -/
theorem C8_witness :
    ("rooma" : String) ≠ "" ∧
    demoRoom.locationHistory "rooma" = some [] ∧
    (∀ u ∈ [UpdReq.mk "A" { position := some { lat := 1, lng := 2 } } 1 false,
            UpdReq.mk "B" { position := some { lat := 3, lng := 4 } } 2 true],
      (demoRoom.sessions u.sid).bind (fun x => x.roomId) = some "rooma") ∧
    (∃ stp, runUpdates demoRoom
        [UpdReq.mk "A" { position := some { lat := 1, lng := 2 } } 1 false,
         UpdReq.mk "B" { position := some { lat := 3, lng := 4 } } 2 true] =
        Except.ok stp ∧
      stp.sessions = demoRoom.sessions ∧
      stp.locationHistory "rooma" =
        some ([] ++
          [UpdReq.mk "A" { position := some { lat := 1, lng := 2 } } 1 false,
           UpdReq.mk "B" { position := some { lat := 3, lng := 4 } } 2 true].map
            (mkRec demoRoom "rooma"))) ∧
    demoRoom.locationHistory "ghost9" = none ∧
    (getLocationHistory demoRoom "C" "ghost9").2 =
      [{ recipients := ["C"], msg := EventMsg.locationHistoryMsg [] }] :=
  ⟨by decide, by decide, by decide,
   C8_append_order_and_graceful_history.1
     [UpdReq.mk "A" { position := some { lat := 1, lng := 2 } } 1 false,
      UpdReq.mk "B" { position := some { lat := 3, lng := 4 } } 2 true]
     demoRoom "rooma" [] (by decide) (by decide) (by decide),
   by decide,
   C8_append_order_and_graceful_history.2.1 demoRoom "C" "ghost9" (by decide)⟩

theorem destroy_not_delivered (m : EventMsg) :
    ∀ (tl : List String) (g : String → List String) (u : String),
      u ∉ tl → (∀ v ∈ tl, g v = [v]) →
      deliveredTo (tl.map (fun v => { recipients := g v, msg := m })) u = [] := by
  intro tl
  induction tl with
  | nil => intro g u _ _; rfl
  | cons a tl2 ih =>
    intro g u hu hg
    have hne : u ≠ a := fun h => hu (h ▸ List.mem_cons_self a tl2)
    have hga : g a = [a] := hg a (List.mem_cons_self a tl2)
    have hrest := ih g u (fun h => hu (List.mem_cons_of_mem a h))
      (fun v hv => hg v (List.mem_cons_of_mem a hv))
    unfold deliveredTo at hrest ⊢
    rw [List.map_cons, List.filter_cons_of_neg (by simp [hga, hne]), hrest]

theorem destroy_delivered_once (m : EventMsg) :
    ∀ (us : List String) (g : String → List String) (u : String),
      us.Nodup → u ∈ us → (∀ v ∈ us, g v = [v]) →
      deliveredTo (us.map (fun v => { recipients := g v, msg := m })) u = [m] := by
  intro us
  induction us with
  | nil => intro g u _ hu _; cases hu
  | cons a tl ih =>
    intro g u hnd hu hg
    have hga : g a = [a] := hg a (List.mem_cons_self a tl)
    rcases List.mem_cons.mp hu with h | h
    · have hnin : u ∉ tl := by rw [h]; exact (List.nodup_cons.mp hnd).1
      have hrest := destroy_not_delivered m tl g u hnin
        (fun v hv => hg v (List.mem_cons_of_mem a hv))
      unfold deliveredTo at hrest ⊢
      rw [List.map_cons, List.filter_cons_of_pos (by simp [hga, h]),
        List.map_cons, hrest]
    · have hne : u ≠ a := fun he => (List.nodup_cons.mp hnd).1 (he ▸ h)
      have hrest := ih g u (List.nodup_cons.mp hnd).2 h
        (fun v hv => hg v (List.mem_cons_of_mem a hv))
      unfold deliveredTo at hrest ⊢
      rw [List.map_cons, List.filter_cons_of_neg (by simp [hga, hne]), hrest]

/-- Full characterization of a creator `disconnect` whose session is
still bound to the room it created (a truthy, i.e. nonempty, room id -
an empty-string binding is falsy and skips the whole branch): one
`roomDestroyed` emission per member still listed after the
transport-level leave, then the adapter entry and the creator entry are
deleted. -/
theorem disconnect_creator_spec (st : ServerState) (sid r : String)
    (nk : Option String) (us : List String)
    (hs : st.sessions sid = some { roomId := some r, nickname := nk })
    (hr : r ≠ "")
    (hc : st.roomCreator r = some sid)
    (hm : adapterLeaveAll st.rooms sid r = some us) :
    disconnect st sid =
      ({ st with
          rooms := mapDel (adapterLeaveAll st.rooms sid) r
          connected := st.connected.erase sid
          sessions := mapDel st.sessions sid
          roomCreator := mapDel st.roomCreator r },
       us.map (fun u =>
         { recipients := (adapterLeaveAll st.rooms sid u).getD [],
           msg := EventMsg.roomDestroyed })) := by
  unfold disconnect
  rw [hs]
  simp only [Option.some_bind, jsTruthyStr, if_neg hr, hc, if_pos, hm]

/-- Claim C4 is refuted at a concrete input: `A` is the creator of the
live room `rooma` (member `B` still joined), but its session has been
reassigned to room `B` by a later join, so when `A` disconnects nothing
is emitted - `B` receives no `roomDestroyed` - and the room survives:
both the creator entry and the membership set for `rooma` persist. -/
theorem C4_counterexample :
    demoRebound.roomCreator "rooma" = some "A" ∧
    "A" ∈ demoRebound.connected ∧
    demoRebound.rooms "rooma" = some ["A", "B"] ∧
    (disconnect demoRebound "A").2 = [] ∧
    deliveredTo (disconnect demoRebound "A").2 "B" = [] ∧
    (disconnect demoRebound "A").1.roomCreator "rooma" = some "A" ∧
    (disconnect demoRebound "A").1.rooms "rooma" = some ["B"] := by
  decide

/-- Claim C4, corrected: the cascade teardown happens only when the
creator's session is still bound, with a truthy (nonempty) room id, to
its room at disconnect (the handler keys on `socket.roomId` under the
falsy-skipping `if (roomId)` guard; a later join can rebind the session,
in which case no teardown occurs - see the counterexample - and an
empty-string id never triggers the branch at all).  Under that proviso -
and with each remaining member's point-to-point self-room intact - every
member still listed in the room after the transport removed the creator
receives exactly one `roomDestroyed {status OK}`, and afterwards the room
no longer exists in the registry: no creator entry and no membership
set. -/
theorem C4_creator_disconnect_teardown (st : ServerState) (sid r : String)
    (nk : Option String) (us : List String)
    (hs : st.sessions sid = some { roomId := some r, nickname := nk })
    (hr : r ≠ "")
    (hc : st.roomCreator r = some sid)
    (hm : adapterLeaveAll st.rooms sid r = some us)
    (hnd : us.Nodup)
    (hself : ∀ u ∈ us, adapterLeaveAll st.rooms sid u = some [u]) :
    (∀ u ∈ us,
      deliveredTo (disconnect st sid).2 u = [EventMsg.roomDestroyed]) ∧
    (disconnect st sid).1.rooms r = none ∧
    (disconnect st sid).1.roomCreator r = none := by
  have hd := disconnect_creator_spec st sid r nk us hs hr hc hm
  refine ⟨?_, ?_, ?_⟩
  · intro u hu
    rw [hd]
    exact destroy_delivered_once EventMsg.roomDestroyed us
      (fun v => (adapterLeaveAll st.rooms sid v).getD []) u hnd hu
      (fun v hv => by
        show (adapterLeaveAll st.rooms sid v).getD [] = [v]
        rw [hself v hv]
        rfl)
  · rw [hd]
    exact mapDel_self _ _
  · rw [hd]
    exact mapDel_self _ _

/-- Witness for `C4_creator_disconnect_teardown` at a concrete input:
Alice created `rooma`, Bob is a member, Alice's session is still bound to
`rooma`; on her disconnect Bob gets exactly one `roomDestroyed` and the
room is gone. -/
theorem C4_witness :
    demoRoom.sessions "A" =
      some { roomId := some "rooma", nickname := some "Alice" } ∧
    ("rooma" : String) ≠ "" ∧
    demoRoom.roomCreator "rooma" = some "A" ∧
    adapterLeaveAll demoRoom.rooms "A" "rooma" = some ["B"] ∧
    (["B"] : List String).Nodup ∧
    (∀ u ∈ (["B"] : List String),
      adapterLeaveAll demoRoom.rooms "A" u = some [u]) ∧
    ((∀ u ∈ (["B"] : List String),
      deliveredTo (disconnect demoRoom "A").2 u = [EventMsg.roomDestroyed]) ∧
    (disconnect demoRoom "A").1.rooms "rooma" = none ∧
    (disconnect demoRoom "A").1.roomCreator "rooma" = none) :=
  ⟨by decide, by decide, by decide, by decide, by decide, by decide,
   C4_creator_disconnect_teardown demoRoom "A" "rooma" (some "Alice") ["B"]
     (by decide) (by decide) (by decide) (by decide) (by decide) (by decide)⟩

theorem createRoom_fields (st : ServerState) (sid : String) (n : Option String)
    (p : Option Position) (r36 : String) (ts : Nat) (dbe : Bool) :
    (createRoom st sid n p r36 ts dbe).1.used = st.used ∧
    (createRoom st sid n p r36 ts dbe).1.connected = st.connected ∧
    (createRoom st sid n p r36 ts dbe).1.rooms =
      adapterJoin st.rooms sid (genRoomId r36) ∧
    (createRoom st sid n p r36 ts dbe).1.roomCreator =
      mapSet st.roomCreator (genRoomId r36) sid := by
  cases p <;> exact ⟨rfl, rfl, rfl, rfl⟩

theorem joinRoom_fields (st : ServerState) (sid rid : String)
    (n : Option String) :
    (joinRoom st sid rid n).1.used = st.used ∧
    (joinRoom st sid rid n).1.connected = st.connected ∧
    (joinRoom st sid rid n).1.roomCreator = st.roomCreator ∧
    ((joinRoom st sid rid n).1.rooms = st.rooms ∨
      (joinRoom st sid rid n).1.rooms = adapterJoin st.rooms sid rid) := by
  cases hr : st.rooms rid with
  | none => refine ⟨?_, ?_, ?_, Or.inl ?_⟩ <;> simp [joinRoom, hr]
  | some l => refine ⟨?_, ?_, ?_, Or.inr ?_⟩ <;> simp [joinRoom, hr]

theorem disconnect_state_cases (st : ServerState) (sid : String) :
    (disconnect st sid).1.connected = st.connected.erase sid ∧
    (disconnect st sid).1.used = st.used ∧
    (((disconnect st sid).1.roomCreator = st.roomCreator ∧
      ((disconnect st sid).1.rooms = adapterLeaveAll st.rooms sid ∨
        ∃ r0, (disconnect st sid).1.rooms =
          adapterLeave (adapterLeaveAll st.rooms sid) sid r0)) ∨
      ∃ r0, st.roomCreator r0 = some sid ∧
        (disconnect st sid).1.roomCreator = mapDel st.roomCreator r0 ∧
        (disconnect st sid).1.rooms = mapDel (adapterLeaveAll st.rooms sid) r0) := by
  cases hb : jsTruthyStr ((st.sessions sid).bind (fun x => x.roomId)) with
  | none =>
    refine ⟨?_, ?_, Or.inl ⟨?_, Or.inl ?_⟩⟩ <;> simp [disconnect, hb]
  | some r0 =>
    by_cases hcr : st.roomCreator r0 = some sid
    · refine ⟨?_, ?_, Or.inr ⟨r0, hcr, ?_, ?_⟩⟩ <;> simp [disconnect, hb, hcr]
    · refine ⟨?_, ?_, Or.inl ⟨?_, Or.inr ⟨r0, ?_⟩⟩⟩ <;>
        simp [disconnect, hb, hcr]

/-- The reachability invariant behind claim C9: connected sockets have
transport-assigned (used) ids, registered creators are used ids, and a
registered creator that is still connected is a member of its room. -/
def Inv (s : ServerState) : Prop :=
  s.connected.Nodup ∧
  (∀ c ∈ s.connected, c ∈ s.used) ∧
  (∀ r c, s.roomCreator r = some c → c ∈ s.used) ∧
  (∀ r c, s.roomCreator r = some c → c ∈ s.connected →
    ∃ l, s.rooms r = some l ∧ c ∈ l)

theorem Inv_step (s : ServerState) (e : Ev) (hinv : Inv s)
    (hok : evOk s e = true) : Inv (applyEv s e).1 := by
  obtain ⟨h0, h1, h2, h3⟩ := hinv
  cases e with
  | connect sid =>
    simp only [evOk, decide_eq_true_eq] at hok
    refine ⟨?_, ?_, ?_, ?_⟩
    · exact List.nodup_cons.mpr ⟨fun h => hok (h1 sid h), h0⟩
    · intro c hc
      rcases List.mem_cons.mp hc with rfl | h
      · exact List.mem_cons_self c s.used
      · exact List.mem_cons_of_mem sid (h1 c h)
    · intro r c hrc
      exact List.mem_cons_of_mem sid (h2 r c hrc)
    · intro r c hrc hcc
      rcases List.mem_cons.mp hcc with rfl | h
      · exact absurd (h2 r c hrc) hok
      · obtain ⟨l, hl, hcl⟩ := h3 r c hrc h
        exact adapterJoin_preserves s.rooms sid sid hl hcl
  | createRoom sid n p r36 ts dbe =>
    simp only [evOk, decide_eq_true_eq] at hok
    obtain ⟨hu, hc2, hr2, hrc2⟩ := createRoom_fields s sid n p r36 ts dbe
    show Inv (createRoom s sid n p r36 ts dbe).1
    refine ⟨?_, ?_, ?_, ?_⟩
    · rw [hc2]
      exact h0
    · intro c hc
      rw [hc2] at hc
      rw [hu]
      exact h1 c hc
    · intro r c hrc
      rw [hrc2] at hrc
      rw [hu]
      by_cases he : r = genRoomId r36
      · subst he
        rw [mapSet_self] at hrc
        have hcs : sid = c := by simpa using hrc
        exact hcs ▸ h1 sid hok
      · rw [mapSet_other _ _ _ he] at hrc
        exact h2 r c hrc
    · intro r c hrc hcc
      rw [hrc2] at hrc
      rw [hc2] at hcc
      rw [hr2]
      by_cases he : r = genRoomId r36
      · subst he
        rw [mapSet_self] at hrc
        have hcs : sid = c := by simpa using hrc
        exact hcs ▸ adapterJoin_self_mem s.rooms sid (genRoomId r36)
      · rw [mapSet_other _ _ _ he] at hrc
        obtain ⟨l, hl, hcl⟩ := h3 r c hrc hcc
        exact adapterJoin_preserves s.rooms sid (genRoomId r36) hl hcl
  | joinRoom sid rid n =>
    obtain ⟨hu, hc2, hrc2, hview⟩ := joinRoom_fields s sid rid n
    show Inv (joinRoom s sid rid n).1
    refine ⟨?_, ?_, ?_, ?_⟩
    · rw [hc2]
      exact h0
    · intro c hc
      rw [hc2] at hc
      rw [hu]
      exact h1 c hc
    · intro r c hrc
      rw [hrc2] at hrc
      rw [hu]
      exact h2 r c hrc
    · intro r c hrc hcc
      rw [hrc2] at hrc
      rw [hc2] at hcc
      obtain ⟨l, hl, hcl⟩ := h3 r c hrc hcc
      rcases hview with hv | hv
      · rw [hv]
        exact ⟨l, hl, hcl⟩
      · rw [hv]
        exact adapterJoin_preserves s.rooms sid rid hl hcl
  | updateLocation sid d ts dbe =>
    obtain ⟨hr2, hrc2, hc2, hu, hss⟩ := updateLocation_frame s sid d ts dbe
    refine ⟨?_, ?_, ?_, ?_⟩
    · rw [hc2]
      exact h0
    · intro c hc
      rw [hc2] at hc
      rw [hu]
      exact h1 c hc
    · intro r c hrc
      rw [hrc2] at hrc
      rw [hu]
      exact h2 r c hrc
    · intro r c hrc hcc
      rw [hrc2] at hrc
      rw [hc2] at hcc
      rw [hr2]
      exact h3 r c hrc hcc
  | getLocationHistory sid rid =>
    exact ⟨h0, h1, h2, h3⟩
  | disconnect sid =>
    obtain ⟨hconn, hused, hcases⟩ := disconnect_state_cases s sid
    show Inv (disconnect s sid).1
    refine ⟨?_, ?_, ?_, ?_⟩
    · rw [hconn]
      exact List.Nodup.erase sid h0
    · intro c hc
      rw [hconn] at hc
      rw [hused]
      exact h1 c (List.mem_of_mem_erase hc)
    · intro r c hrc
      rw [hused]
      rcases hcases with ⟨hrc2, _⟩ | ⟨r0, hcr0, hrc2, _⟩
      · rw [hrc2] at hrc
        exact h2 r c hrc
      · rw [hrc2] at hrc
        by_cases he : r = r0
        · subst he
          rw [mapDel_self] at hrc
          cases hrc
        · rw [mapDel_other _ _ he] at hrc
          exact h2 r c hrc
    · intro r c hrc hcc
      rw [hconn] at hcc
      have hcs : c ∈ s.connected := List.mem_of_mem_erase hcc
      have hcsid : c ≠ sid := ((List.Nodup.mem_erase_iff h0).mp hcc).1
      rcases hcases with ⟨hrc2, hrooms⟩ | ⟨r0, hcr0, hrc2, hrooms⟩
      · rw [hrc2] at hrc
        obtain ⟨l, hl, hcl⟩ := h3 r c hrc hcs
        rcases hrooms with hv | ⟨r0, hv⟩
        · rw [hv]
          exact adapterLeaveAll_preserves s.rooms sid hl hcl hcsid
        · rw [hv]
          obtain ⟨l2, hl2, hcl2⟩ :=
            adapterLeaveAll_preserves s.rooms sid hl hcl hcsid
          exact adapterLeave_preserves _ sid r0 hl2 hcl2 hcsid
      · rw [hrc2] at hrc
        by_cases he : r = r0
        · subst he
          rw [mapDel_self] at hrc
          cases hrc
        · rw [mapDel_other _ _ he] at hrc
          rw [hrooms]
          obtain ⟨l, hl, hcl⟩ := h3 r c hrc hcs
          obtain ⟨l2, hl2, hcl2⟩ :=
            adapterLeaveAll_preserves s.rooms sid hl hcl hcsid
          rw [mapDel_other _ _ he]
          exact ⟨l2, hl2, hcl2⟩

theorem Inv_reachable (s : ServerState) (hs : Reachable s) : Inv s := by
  induction hs with
  | init =>
    refine ⟨List.nodup_nil, ?_, ?_, ?_⟩
    · intro c hc
      simp [initState] at hc
    · intro r c hrc
      simp [initState] at hrc
    · intro r c hrc hcc
      simp [initState] at hrc
  | step hr hok ih => exact Inv_step _ _ ih hok

/-- Claim C9, confirmed.  First conjunct: in every reachable state, the
registered creator of a room that has not disconnected (its transport id
is still connected - socket.io never reuses ids) is a member of that
room's adapter set.  Second conjunct: from any state in which the creator
is a member of its room, any event other than that creator's own
disconnect leaves the creator in the room's member set. -/
theorem C9_creator_in_members :
    (∀ s, Reachable s → ∀ r c, s.roomCreator r = some c → c ∈ s.connected →
      ∃ l, s.rooms r = some l ∧ c ∈ l) ∧
    (∀ (s : ServerState) (e : Ev) (r c : String) (l : List String),
      s.roomCreator r = some c → s.rooms r = some l → c ∈ l →
      e ≠ Ev.disconnect c →
      ∃ lp, (applyEv s e).1.rooms r = some lp ∧ c ∈ lp) := by
  constructor
  · intro s hs r c hrc hcc
    exact (Inv_reachable s hs).2.2.2 r c hrc hcc
  · intro s e r c l hrc hl hcl hne
    cases e with
    | connect sid =>
      exact adapterJoin_preserves s.rooms sid sid hl hcl
    | createRoom sid n p r36 ts dbe =>
      show ∃ lp, (createRoom s sid n p r36 ts dbe).1.rooms r = some lp ∧ c ∈ lp
      rw [(createRoom_fields s sid n p r36 ts dbe).2.2.1]
      exact adapterJoin_preserves s.rooms sid (genRoomId r36) hl hcl
    | joinRoom sid rid n =>
      show ∃ lp, (joinRoom s sid rid n).1.rooms r = some lp ∧ c ∈ lp
      rcases (joinRoom_fields s sid rid n).2.2.2 with hv | hv
      · rw [hv]
        exact ⟨l, hl, hcl⟩
      · rw [hv]
        exact adapterJoin_preserves s.rooms sid rid hl hcl
    | updateLocation sid d ts dbe =>
      rw [(updateLocation_frame s sid d ts dbe).1]
      exact ⟨l, hl, hcl⟩
    | getLocationHistory sid rid =>
      exact ⟨l, hl, hcl⟩
    | disconnect sid =>
      have hcsid : c ≠ sid := fun h => hne (by rw [h])
      obtain ⟨hconn, hused, hcases⟩ := disconnect_state_cases s sid
      show ∃ lp, (disconnect s sid).1.rooms r = some lp ∧ c ∈ lp
      rcases hcases with ⟨hrc2, hrooms⟩ | ⟨r0, hcr0, hrc2, hrooms⟩
      · rcases hrooms with hv | ⟨r0, hv⟩
        · rw [hv]
          exact adapterLeaveAll_preserves s.rooms sid hl hcl hcsid
        · rw [hv]
          obtain ⟨l2, hl2, hcl2⟩ :=
            adapterLeaveAll_preserves s.rooms sid hl hcl hcsid
          exact adapterLeave_preserves _ sid r0 hl2 hcl2 hcsid
      · have he : r ≠ r0 := by
          intro h
          rw [h, hcr0] at hrc
          exact hcsid (by simpa using hrc.symm)
        rw [hrooms, mapDel_other _ _ he]
        exact adapterLeaveAll_preserves s.rooms sid hl hcl hcsid

/-- Witness for `C9_creator_in_members` at concrete inputs: in the
reachable state `demoState` the creator `A` of `rooma` is a member, and a
subsequent join by `B` keeps `A` in the member set. -/
theorem C9_witness :
    (∃ l, demoState.rooms "rooma" = some l ∧ "A" ∈ l) ∧
    (∃ lp, (applyEv demoState (Ev.joinRoom "B" "rooma" none)).1.rooms
        "rooma" = some lp ∧ "A" ∈ lp) :=
  ⟨C9_creator_in_members.1 demoState
    (Reachable.step (e := Ev.createRoom "A" none none "0.rooma" 0 false)
      (Reachable.step (e := Ev.connect "A") Reachable.init (by decide))
      (by decide))
    "rooma" "A" (by decide) (by decide),
   C9_creator_in_members.2 demoState (Ev.joinRoom "B" "rooma" none)
     "rooma" "A" ["A"] (by decide) (by decide) (by decide) (by decide)⟩

end Locshare
